import Mathlib

/-!
Shallow embedding of the transfer-manager and health-monitor logic of
`src/client/utils/avalanche.ts` (classes `SecureTransferManager` and
`SubnetHealthMonitor`).  JavaScript numbers that stay integral are modelled
as `Nat`/`Int`; the floating-point health metrics and `Math.random()` draws
are modelled as rationals.  The single-threaded cooperative execution is
modelled by explicit state passing: every `activeTransfers.set` performed
during a transfer's execution is recorded as a snapshot in a trace.
-/

namespace Isro

/-- The status union type of `TransferStatus` (avalanche.ts line 35):
`'pending' | 'processing' | 'completed' | 'failed'`. -/
inductive TStatus where
  | pending
  | processing
  | completed
  | failed
deriving DecidableEq, Repr, Fintype

/-- The priority union type of `TransferRequest` (line 27). -/
inductive Priority where
  | low
  | medium
  | high
  | critical
deriving DecidableEq, Repr

/-- The encryption-type union of `TransferRequest` (line 28); labels only. -/
inductive EncryptionType where
  | aes256
  | chacha20poly1305
deriving DecidableEq, Repr

/-- `TransferRequest` (lines 22-31). -/
structure TransferRequest where
  id : String
  fromStation : String
  toStation : String
  dataSize : Int
  priority : Priority
  encryptionType : EncryptionType
  timestamp : Int
  checksum : String
deriving DecidableEq, Repr

/-- `TransferStatus` (lines 33-41), the mutable per-transfer state record. -/
structure TransferStatus where
  requestId : String
  status : TStatus
  progress : Nat
  currentStation : String
  nextStation : String
  estimatedTime : Int
  error : Option String
deriving DecidableEq, Repr

/-- The key set of `ISRO_SUBNET_CONFIG` (lines 60-121), in declaration order. -/
def subnetStations : List String :=
  ["bangalore", "chennai", "delhi", "sriharikota"]

/-- Key-membership test `station in ISRO_SUBNET_CONFIG`. -/
def inSubnetConfig (station : String) : Bool :=
  subnetStations.contains station

/-- `SubnetHealth` (lines 43-51); fractional metrics as rationals. -/
structure SubnetHealth where
  stationId : String
  uptime : ℚ
  lastBlock : ℚ
  validatorCount : Nat
  consensusRate : ℚ
  networkLatency : ℚ
  dataThroughput : ℚ
deriving DecidableEq, Repr

/-- The health monitor's `healthData` map, read by station id. -/
abbrev HealthMap := String → Option SubnetHealth

/-- One batch of `Math.random()` draws consumed by a single per-station
health initialization or refresh; each draw lies in `[0, 1)`. -/
structure RandDraws where
  r1 : ℚ
  r2 : ℚ
  r3 : ℚ
  r4 : ℚ
  r5 : ℚ
deriving DecidableEq, Repr

/-- All five draws of a `RandDraws` batch lie in `[0, 1)`, as `Math.random()`
guarantees. -/
def randOk (r : RandDraws) : Prop :=
  0 ≤ r.r1 ∧ r.r1 < 1 ∧ 0 ≤ r.r2 ∧ r.r2 < 1 ∧ 0 ≤ r.r3 ∧ r.r3 < 1 ∧
  0 ≤ r.r4 ∧ r.r4 < 1 ∧ 0 ≤ r.r5 ∧ r.r5 < 1

instance (r : RandDraws) : Decidable (randOk r) := by
  unfold randOk; infer_instance

/-- The initial per-station snapshot written by
`initializeHealthMonitoring` (lines 142-152): uptime `0.99`, consensus rate
`0.98`, latency `50 + Math.random() * 50`, throughput
`500 + Math.random() * 500`; every station has 4 configured validators. -/
def initialStationHealth (stationId : String) (now : ℚ) (r : RandDraws) :
    SubnetHealth where
  stationId := stationId
  uptime := 99 / 100
  lastBlock := now
  validatorCount := 4
  consensusRate := 98 / 100
  networkLatency := 50 + r.r4 * 50
  dataThroughput := 500 + r.r5 * 500

/-- `Math.max(lo, Math.min(hi, x))`, the clamping pattern of
`checkStationHealth`. -/
def clampQ (lo hi x : ℚ) : ℚ :=
  max lo (min hi x)

/-- One refresh of a station's snapshot, `checkStationHealth`
(lines 184-191): bounded random perturbation of each metric followed by a
clamp to its valid range. -/
def checkStationHealth (base : SubnetHealth) (r : RandDraws) : SubnetHealth :=
  { base with
    uptime := clampQ (97 / 100) 1 (base.uptime + (r.r1 - 1 / 2) * (1 / 100))
    lastBlock := base.lastBlock + ((⌊r.r2 * 100⌋ : Int) : ℚ)
    consensusRate :=
      clampQ (97 / 100) 1 (base.consensusRate + (r.r3 - 1 / 2) * (2 / 100))
    networkLatency :=
      clampQ 30 150 (base.networkLatency + (r.r4 - 1 / 2) * 20)
    dataThroughput :=
      clampQ 200 2000 (base.dataThroughput + (r.r5 - 1 / 2) * 100) }

/-- Iterated refresh ticks for one station: fold `checkStationHealth` over a
list of random-draw batches. -/
def runHealthTicks (h : SubnetHealth) (rs : List RandDraws) : SubnetHealth :=
  rs.foldl checkStationHealth h

/-- `isStationHealthy` (lines 202-209): false for unknown ids, otherwise
uptime ≥ 0.95, consensus rate ≥ 0.95 and latency < 150. -/
def isStationHealthy (healthData : HealthMap) (stationId : String) : Bool :=
  match healthData stationId with
  | none => false
  | some health =>
      decide (health.uptime ≥ 95 / 100) &&
      decide (health.consensusRate ≥ 95 / 100) &&
      decide (health.networkLatency < 150)

/-- The `activeTransfers` JS `Map`, modelled as an insertion-ordered
association list. -/
abbrev TransferMap := List (String × TransferStatus)

/-- `Map.get`: the (unique) entry with the given key, if any. -/
def mapGet : TransferMap → String → Option TransferStatus
  | [], _ => none
  | p :: t, k => if p.1 = k then some p.2 else mapGet t k

/-- `Map.set`: replace in place when the key is present (keeping insertion
order), otherwise append. -/
def mapSet : TransferMap → String → TransferStatus → TransferMap
  | [], k, v => [(k, v)]
  | p :: t, k, v => if p.1 = k then (k, v) :: t else p :: mapSet t k v

/-- The mutable state of `SecureTransferManager`: the `activeTransfers` map
and the FIFO `transferQueue` (lines 222-223). -/
structure ManagerState where
  activeTransfers : TransferMap
  transferQueue : List TransferRequest
deriving DecidableEq, Repr

/-- `validateTransferRequest` (lines 267-273): non-empty id, both stations
in the registry, and `0 < dataSize ≤ 100 * 1024 * 1024 * 1024`. -/
def validateTransferRequest (request : TransferRequest) : Bool :=
  decide (request.id.length > 0) &&
  inSubnetConfig request.fromStation &&
  inSubnetConfig request.toStation &&
  decide (request.dataSize > 0) &&
  decide (request.dataSize ≤ 100 * 1024 * 1024 * 1024)

/-- The priority multiplier table of `calculateEstimatedTime` (lines
277-282). -/
def priorityMultiplier : Priority → ℚ
  | .low => 3 / 2
  | .medium => 1
  | .high => 7 / 10
  | .critical => 1 / 2

/-- `calculateEstimatedTime` (lines 275-285):
`ceil(dataSize / (100 MiB) * multiplier * 60)` seconds. -/
def calculateEstimatedTime (request : TransferRequest) : Int :=
  ⌈(request.dataSize : ℚ) / (100 * 1024 * 1024) *
    priorityMultiplier request.priority * 60⌉

/-- `getTransferRoute` (lines 331-341): identity route for equal endpoints,
direct route when either endpoint is the Bangalore hub, otherwise via the
hub. -/
def getTransferRoute (fromStation toStation : String) : List String :=
  if fromStation = toStation then [fromStation]
  else if fromStation = "bangalore" ∨ toStation = "bangalore" then
    [fromStation, toStation]
  else
    [fromStation, "bangalore", toStation]

/-- `transferSteps` (line 344): each hop advances in 10 equal steps. -/
def transferSteps : Nat := 10

/-- One loop iteration of `simulateStationTransfer` (line 348):
`progress = Math.min(100, (step + 1) * (100 / transferSteps))`. -/
def simulateStep (st : TransferStatus) (step : Nat) : TransferStatus :=
  { st with progress := min 100 ((step + 1) * (100 / transferSteps)) }

/-- `simulateStationTransfer` (lines 343-353): runs the 10 progress steps,
returning the final record and the list of snapshots stored in
`activeTransfers` (one `set` per step). -/
def simulateStationTransfer (st : TransferStatus) :
    TransferStatus × List TransferStatus :=
  (List.range transferSteps).foldl
    (fun acc step =>
      let st1 := simulateStep acc.1 step
      (st1, acc.2 ++ [st1]))
    (st, [])

/-- One iteration of the hop loop of `executeTransfer` (lines 312-326):
point `currentStation`/`nextStation` at the hop endpoints, run the step
simulation, and on the last hop mark the transfer completed with progress
100. -/
def hopStep (stations : List String) (hops : Nat) (st : TransferStatus)
    (i : Nat) : TransferStatus × List TransferStatus :=
  let st1 := { st with
    currentStation := stations.getD i ""
    nextStation := stations.getD (i + 1) "" }
  let sim := simulateStationTransfer st1
  let st2 :=
    if i = hops - 1 then
      { sim.1 with status := TStatus.completed, progress := 100 }
    else sim.1
  (st2, sim.2)

/-- `executeTransfer` (lines 306-329): set status to processing, compute the
route, run every hop, and store the final record.  Returns the final record
and the full trace of snapshots stored in `activeTransfers`. -/
def executeTransfer (request : TransferRequest) (st : TransferStatus) :
    TransferStatus × List TransferStatus :=
  let st0 := { st with status := TStatus.processing }
  let stations := getTransferRoute request.fromStation request.toStation
  let hops := stations.length - 1
  let res := (List.range hops).foldl
    (fun acc i =>
      let stepRes := hopStep stations hops acc.1 i
      (stepRes.1, acc.2 ++ stepRes.2))
    (st0, [])
  (res.1, res.2 ++ [res.1])

/-- The fresh `TransferStatus` built by `initiateTransfer` (lines 248-256):
status pending, progress 0, current = source, next = destination. -/
def freshStatus (request : TransferRequest) : TransferStatus where
  requestId := request.id
  status := TStatus.pending
  progress := 0
  currentStation := request.fromStation
  nextStation := request.toStation
  estimatedTime := calculateEstimatedTime request
  error := none

/-- The state mutation of a successful `initiateTransfer` before queue
processing starts (lines 258-259): store the fresh pending record under the
request id (overwriting any existing entry) and push the request onto the
queue. -/
def initiateCore (s : ManagerState) (request : TransferRequest) :
    ManagerState where
  activeTransfers := mapSet s.activeTransfers request.id (freshStatus request)
  transferQueue := s.transferQueue ++ [request]

/-- The mutations `executeTransfer` performs synchronously before its first
timer suspension (the `setTimeout` await inside `simulateStationTransfer`):
status becomes processing; when the route has at least two stations the hop
endpoints are set and step 0 stores progress 10.  For a single-station route
`executeTransfer` has no await at all and completes synchronously with the
final store of the processing record. -/
def syncStart (request : TransferRequest) (st : TransferStatus) :
    TransferStatus :=
  let st0 := { st with status := TStatus.processing }
  let stations := getTransferRoute request.fromStation request.toStation
  if 2 ≤ stations.length then
    simulateStep
      { st0 with
        currentStation := stations.getD 0 ""
        nextStation := stations.getD 1 "" }
      0
  else st0

/-- The synchronous part of `processTransferQueue` (lines 287-304), which
runs to its first suspension point before `initiateTransfer` returns: shift
the queue head and start executing it. -/
def processQueueSync (s : ManagerState) : ManagerState :=
  match s.transferQueue with
  | [] => s
  | request :: rest =>
    match mapGet s.activeTransfers request.id with
    | none => { s with transferQueue := rest }
    | some st =>
        { activeTransfers :=
            mapSet s.activeTransfers request.id (syncStart request st)
          transferQueue := rest }

/-- `initiateTransfer` (lines 234-265) together with the synchronous part of
the un-awaited `processTransferQueue()` call it makes; returns the thrown
error or the returned id, paired with the manager state observable when the
call returns. -/
def initiateTransfer (health : HealthMap) (s : ManagerState)
    (request : TransferRequest) : Except String String × ManagerState :=
  if validateTransferRequest request = false then
    (Except.error "Invalid transfer request", s)
  else if (isStationHealthy health request.fromStation &&
           isStationHealthy health request.toStation) = false then
    (Except.error "One or both stations are unhealthy", s)
  else
    (Except.ok request.id, processQueueSync (initiateCore s request))

/-- `getTransferStatus` (lines 355-357). -/
def getTransferStatus (s : ManagerState) (transferId : String) :
    Option TransferStatus :=
  mapGet s.activeTransfers transferId

/-- `cancelTransfer` (lines 363-372): only a pending transfer is cancelled;
it is marked failed with the message "Transfer cancelled by user" and the
call returns true; any other status, or an unknown id, returns false and
changes nothing. -/
def cancelTransfer (s : ManagerState) (transferId : String) :
    Bool × ManagerState :=
  match mapGet s.activeTransfers transferId with
  | some st =>
      if st.status = TStatus.pending then
        (true,
          { s with
            activeTransfers := mapSet s.activeTransfers transferId
              { st with
                status := TStatus.failed
                error := some "Transfer cancelled by user" } })
      else (false, s)
  | none => (false, s)

/-! ### Concrete fixtures used to instantiate the theorems -/

/-- A health map giving every registered station its optimistic initial
snapshot (all random draws zero); unhealthy `none` elsewhere. -/
def demoHealth : HealthMap := fun stationId =>
  if inSubnetConfig stationId then
    some (initialStationHealth stationId 0 ⟨0, 0, 0, 0, 0⟩)
  else none

/-- A structurally valid request from the Bangalore hub to Chennai. -/
def demoRequest : TransferRequest where
  id := "t1"
  fromStation := "bangalore"
  toStation := "chennai"
  dataSize := 1024
  priority := Priority.high
  encryptionType := EncryptionType.aes256
  timestamp := 0
  checksum := "0xabc"

/-- A valid request whose source and destination coincide. -/
def demoLoopRequest : TransferRequest :=
  { demoRequest with id := "t2", fromStation := "delhi", toStation := "delhi" }

/-- A manager with no transfers and an empty queue. -/
def emptyState : ManagerState where
  activeTransfers := []
  transferQueue := []

/-- A manager holding a single pending transfer under id "t1". -/
def demoPendingState : ManagerState where
  activeTransfers := [("t1", freshStatus demoRequest)]
  transferQueue := []

/-- A manager holding a completed transfer under id "t1", used to exercise
duplicate submission. -/
def demoCompletedState : ManagerState where
  activeTransfers :=
    [("t1", { freshStatus demoRequest with
                status := TStatus.completed, progress := 100 })]
  transferQueue := []

/-! ### Helper lemmas -/

lemma mapGet_mapSet_self (m : TransferMap) (k : String) (v : TransferStatus) :
    mapGet (mapSet m k v) k = some v := by
  induction m with
  | nil => simp [mapGet, mapSet]
  | cons p t ih =>
    by_cases h : p.1 = k
    · simp [mapGet, mapSet, h]
    · simp [mapGet, mapSet, h, ih]

/-- The ten per-step snapshots `simulateStationTransfer` stores for a hop
whose state record enters as `st`. -/
def simSnapshots (st : TransferStatus) : List TransferStatus :=
  [{ st with progress := 10 }, { st with progress := 20 },
   { st with progress := 30 }, { st with progress := 40 },
   { st with progress := 50 }, { st with progress := 60 },
   { st with progress := 70 }, { st with progress := 80 },
   { st with progress := 90 }, { st with progress := 100 }]

lemma simulateStationTransfer_eq (st : TransferStatus) :
    simulateStationTransfer st =
      ({ st with progress := 100 }, simSnapshots st) := by
  simp [simulateStationTransfer, simSnapshots, transferSteps, simulateStep,
    List.range_succ]

lemma getTransferRoute_cases (f t : String) :
    (f = t ∧ getTransferRoute f t = [f]) ∨
    (f ≠ t ∧ getTransferRoute f t = [f, t]) ∨
    (f ≠ t ∧ getTransferRoute f t = [f, "bangalore", t]) := by
  by_cases h1 : f = t
  · refine Or.inl ⟨h1, ?_⟩
    unfold getTransferRoute
    rw [if_pos h1]
  · by_cases h2 : f = "bangalore" ∨ t = "bangalore"
    · refine Or.inr (Or.inl ⟨h1, ?_⟩)
      unfold getTransferRoute
      rw [if_neg h1, if_pos h2]
    · refine Or.inr (Or.inr ⟨h1, ?_⟩)
      unfold getTransferRoute
      rw [if_neg h1, if_neg h2]

lemma executeTransfer_single (request : TransferRequest) (st : TransferStatus)
    (h : getTransferRoute request.fromStation request.toStation =
      [request.fromStation]) :
    executeTransfer request st =
      ({ st with status := TStatus.processing },
       [{ st with status := TStatus.processing }]) := by
  simp [executeTransfer, h]

lemma executeTransfer_pair (request : TransferRequest) (st : TransferStatus)
    (a b : String)
    (h : getTransferRoute request.fromStation request.toStation = [a, b]) :
    executeTransfer request st =
      ({ st with status := TStatus.completed, progress := 100, currentStation := a, nextStation := b },
       simSnapshots { st with status := TStatus.processing, currentStation := a, nextStation := b } ++
        [{ st with status := TStatus.completed, progress := 100, currentStation := a, nextStation := b }]) := by
  simp [executeTransfer, h, List.range_succ, hopStep,
    simulateStationTransfer_eq]

lemma executeTransfer_triple (request : TransferRequest) (st : TransferStatus)
    (a b c : String)
    (h : getTransferRoute request.fromStation request.toStation = [a, b, c]) :
    executeTransfer request st =
      ({ st with status := TStatus.completed, progress := 100, currentStation := b, nextStation := c },
       simSnapshots { st with status := TStatus.processing, currentStation := a, nextStation := b } ++
        simSnapshots { st with status := TStatus.processing, progress := 100, currentStation := b, nextStation := c } ++
        [{ st with status := TStatus.completed, progress := 100, currentStation := b, nextStation := c }]) := by
  simp [executeTransfer, h, List.range_succ, hopStep,
    simulateStationTransfer_eq]

lemma syncStart_status (request : TransferRequest) (st : TransferStatus) :
    (syncStart request st).status = TStatus.processing := by
  unfold syncStart
  by_cases h :
      2 ≤ (getTransferRoute request.fromStation request.toStation).length
  · simp [h, simulateStep]
  · simp [h]

/-! ### Claim theorems -/

/-- C4: the routing function is deterministic and fixed: equal endpoints give
the singleton route, a route touching the Bangalore hub is direct, and any
other pair goes through the hub; the three concrete spec examples hold. -/
theorem route_policy (s d : String) :
    (s = d → getTransferRoute s d = [s]) ∧
    (s ≠ d → s = "bangalore" ∨ d = "bangalore" →
      getTransferRoute s d = [s, d]) ∧
    (s ≠ d → ¬(s = "bangalore" ∨ d = "bangalore") →
      getTransferRoute s d = [s, "bangalore", d]) ∧
    getTransferRoute "bangalore" "chennai" = ["bangalore", "chennai"] ∧
    getTransferRoute "chennai" "delhi" = ["chennai", "bangalore", "delhi"] ∧
    getTransferRoute "delhi" "delhi" = ["delhi"] := by
  refine ⟨?_, ?_, ?_, by decide, by decide, by decide⟩
  · intro h1
    unfold getTransferRoute
    rw [if_pos h1]
  · intro h1 h2
    unfold getTransferRoute
    rw [if_neg h1, if_pos h2]
  · intro h1 h2
    unfold getTransferRoute
    rw [if_neg h1, if_neg h2]

/-- Witness for C4: the hub-relay case instantiated at Chennai → Delhi. -/
theorem route_policy_witness :
    getTransferRoute "chennai" "delhi" = ["chennai", "bangalore", "delhi"] :=
  (route_policy "chennai" "delhi").2.2.1 (by decide) (by decide)

/-- C5: structural validation accepts a request exactly when the id is
non-empty, both stations resolve in the registry, and the payload size lies
in `[1, 100 * 1024^3]` bytes; the boundary size is accepted and one byte
more is rejected. -/
theorem validate_size_bounds :
    (∀ request : TransferRequest,
      validateTransferRequest request = true ↔
        (0 < request.id.length ∧
         inSubnetConfig request.fromStation = true ∧
         inSubnetConfig request.toStation = true ∧
         1 ≤ request.dataSize ∧
         request.dataSize ≤ 100 * 1024 * 1024 * 1024)) ∧
    validateTransferRequest
      { demoRequest with dataSize := 100 * 1024 * 1024 * 1024 } = true ∧
    validateTransferRequest
      { demoRequest with dataSize := 100 * 1024 * 1024 * 1024 + 1 } = false := by
  refine ⟨fun request => ?_, by decide, by decide⟩
  unfold validateTransferRequest
  simp only [Bool.and_eq_true, decide_eq_true_eq]
  constructor
  · rintro ⟨⟨⟨⟨h1, h2⟩, h3⟩, h4⟩, h5⟩
    exact ⟨h1, h2, h3, by omega, h5⟩
  · rintro ⟨h1, h2, h3, h4, h5⟩
    exact ⟨⟨⟨⟨h1, h2⟩, h3⟩, by omega⟩, h5⟩

/-- C1 counterexample: cancelling a pending transfer does not produce a
distinct Cancelled status — the stored status becomes `failed` (the same
constructor used for execution failures) with the message
"Transfer cancelled by user", and the status type has no fifth value. -/
theorem cancel_no_cancelled_status :
    (cancelTransfer demoPendingState "t1").1 = true ∧
    (mapGet (cancelTransfer demoPendingState "t1").2.activeTransfers
        "t1").map TransferStatus.status = some TStatus.failed ∧
    (mapGet (cancelTransfer demoPendingState "t1").2.activeTransfers
        "t1").map TransferStatus.error =
      some (some "Transfer cancelled by user") ∧
    (Finset.univ : Finset TStatus) =
      {TStatus.pending, TStatus.processing, TStatus.completed,
       TStatus.failed} := by
  refine ⟨by decide, by decide, by decide, by decide⟩

/-- C1 amended: cancel succeeds only when the current status is pending, in
which case it returns true and rewrites the record to status `failed` with
error "Transfer cancelled by user"; for any other current status, or an
unknown id, it returns false and leaves the manager state unchanged. -/
theorem cancel_pending_only (s : ManagerState) (transferId : String) :
    (∀ st, mapGet s.activeTransfers transferId = some st →
      st.status = TStatus.pending →
      cancelTransfer s transferId =
        (true, { s with activeTransfers := mapSet s.activeTransfers transferId { st with status := TStatus.failed, error := some "Transfer cancelled by user" } })) ∧
    (∀ st, mapGet s.activeTransfers transferId = some st →
      st.status ≠ TStatus.pending →
      cancelTransfer s transferId = (false, s)) ∧
    (mapGet s.activeTransfers transferId = none →
      cancelTransfer s transferId = (false, s)) := by
  refine ⟨?_, ?_, ?_⟩
  · intro st hget hp
    simp [cancelTransfer, hget, hp]
  · intro st hget hnp
    simp [cancelTransfer, hget, hnp]
  · intro hnone
    simp [cancelTransfer, hnone]

/-- Witness for C1 amended: the pending case instantiated at the demo
manager. -/
theorem cancel_pending_only_witness :
    cancelTransfer demoPendingState "t1" =
      (true, { demoPendingState with activeTransfers := mapSet demoPendingState.activeTransfers "t1" { freshStatus demoRequest with status := TStatus.failed, error := some "Transfer cancelled by user" } }) :=
  (cancel_pending_only demoPendingState "t1").1 (freshStatus demoRequest)
    rfl rfl

/-- C8: cancelling the same pending transfer twice cancels it exactly once:
the first call returns true and performs the transition (the stored status
becomes the terminal cancelled representation), the second call returns
false and changes nothing. -/
theorem cancel_twice_once (s : ManagerState) (transferId : String)
    (st : TransferStatus)
    (hget : mapGet s.activeTransfers transferId = some st)
    (hp : st.status = TStatus.pending) :
    (cancelTransfer s transferId).1 = true ∧
    (mapGet (cancelTransfer s transferId).2.activeTransfers transferId).map
      TransferStatus.status = some TStatus.failed ∧
    cancelTransfer (cancelTransfer s transferId).2 transferId =
      (false, (cancelTransfer s transferId).2) := by
  have h1 : cancelTransfer s transferId =
      (true, { s with activeTransfers := mapSet s.activeTransfers transferId { st with status := TStatus.failed, error := some "Transfer cancelled by user" } }) := by
    simp [cancelTransfer, hget, hp]
  refine ⟨by rw [h1], ?_, ?_⟩
  · rw [h1]
    simp [mapGet_mapSet_self]
  · rw [h1]
    simp [cancelTransfer, mapGet_mapSet_self]

/-- Witness for C8: double cancellation at the demo manager. -/
theorem cancel_twice_once_witness :
    (cancelTransfer demoPendingState "t1").1 = true ∧
    (mapGet (cancelTransfer demoPendingState "t1").2.activeTransfers
      "t1").map TransferStatus.status = some TStatus.failed ∧
    cancelTransfer (cancelTransfer demoPendingState "t1").2 "t1" =
      (false, (cancelTransfer demoPendingState "t1").2) :=
  cancel_twice_once demoPendingState "t1" (freshStatus demoRequest)
    rfl rfl

lemma mem_simSnapshots_status (st : TransferStatus) (x : TransferStatus)
    (hx : x ∈ simSnapshots st) : x.status = st.status := by
  simp only [simSnapshots, List.mem_cons, List.not_mem_nil, or_false] at hx
  rcases hx with rfl | rfl | rfl | rfl | rfl | rfl | rfl | rfl | rfl | rfl <;>
    rfl

lemma final_mem_trace (request : TransferRequest) (st : TransferStatus) :
    (executeTransfer request st).1 ∈ (executeTransfer request st).2 := by
  unfold executeTransfer
  simp

/-- C2 counterexample: executing the demo one-hop transfer stores a state
whose status is still `processing` while its progress is already 100 (the
last step of the hop's simulation, stored one second before the completed
transition). -/
theorem processing_progress_hundred :
    ((executeTransfer demoRequest (freshStatus demoRequest)).2.any
      (fun st => decide (st.status = TStatus.processing) &&
        decide (st.progress = 100))) = true := by decide

/-- C2 amended: at every stored point of a transfer's execution, status
`completed` implies progress 100 (so all completed transfers have progress
exactly 100); the converse direction fails, since progress reaches 100 at
the end of each hop while the status is still `processing`. -/
theorem completed_implies_progress_hundred (request : TransferRequest)
    (st : TransferStatus) :
    ∀ snap ∈ (executeTransfer request st).2,
      snap.status = TStatus.completed → snap.progress = 100 := by
  rcases getTransferRoute_cases request.fromStation request.toStation with
    ⟨h1, hr⟩ | ⟨h1, hr⟩ | ⟨h1, hr⟩
  · rw [executeTransfer_single request st hr]
    intro snap hsnap
    simp only [List.mem_cons, List.not_mem_nil, or_false] at hsnap
    subst hsnap
    intro hc
    simp at hc
  · rw [executeTransfer_pair request st _ _ hr]
    intro snap hsnap
    rcases List.mem_append.mp hsnap with hmem | hmem
    · have hst := mem_simSnapshots_status _ _ hmem
      intro hc
      rw [hc] at hst
      simp at hst
    · simp only [List.mem_cons, List.not_mem_nil, or_false] at hmem
      subst hmem
      intro _
      rfl
  · rw [executeTransfer_triple request st _ _ _ hr]
    intro snap hsnap
    rcases List.mem_append.mp hsnap with hmem | hmem
    · rcases List.mem_append.mp hmem with hmem2 | hmem2 <;>
      · have hst := mem_simSnapshots_status _ _ hmem2
        intro hc
        rw [hc] at hst
        simp at hst
    · simp only [List.mem_cons, List.not_mem_nil, or_false] at hmem
      subst hmem
      intro _
      rfl

/-- Witness for C2 amended: the final stored state of the demo transfer is
completed with progress 100. -/
theorem completed_implies_progress_hundred_witness :
    (executeTransfer demoRequest (freshStatus demoRequest)).1 ∈
      (executeTransfer demoRequest (freshStatus demoRequest)).2 ∧
    (executeTransfer demoRequest (freshStatus demoRequest)).1.status =
      TStatus.completed ∧
    (executeTransfer demoRequest (freshStatus demoRequest)).1.progress =
      100 :=
  ⟨final_mem_trace demoRequest (freshStatus demoRequest), rfl,
    completed_implies_progress_hundred demoRequest (freshStatus demoRequest)
      (executeTransfer demoRequest (freshStatus demoRequest)).1
      (final_mem_trace demoRequest (freshStatus demoRequest)) rfl⟩

/-- C9: a transfer whose source equals its destination computes the
single-element route, performs zero hops, and its execution stores exactly
one state: status `processing` with progress 0; no stored state is ever
completed or failed, and execution performs no further stores afterwards. -/
theorem same_station_stays_processing (request : TransferRequest)
    (h : request.fromStation = request.toStation) :
    executeTransfer request (freshStatus request) =
      ({ freshStatus request with status := TStatus.processing },
       [{ freshStatus request with status := TStatus.processing }]) ∧
    (executeTransfer request (freshStatus request)).1.progress = 0 ∧
    (∀ snap ∈ (executeTransfer request (freshStatus request)).2,
      snap.status = TStatus.processing ∧ snap.progress = 0) := by
  have hr : getTransferRoute request.fromStation request.toStation =
      [request.fromStation] := by
    unfold getTransferRoute
    rw [if_pos h]
  have heq := executeTransfer_single request (freshStatus request) hr
  refine ⟨heq, by rw [heq]; rfl, ?_⟩
  intro snap hsnap
  rw [heq] at hsnap
  simp only [List.mem_cons, List.not_mem_nil, or_false] at hsnap
  subst hsnap
  exact ⟨rfl, rfl⟩

/-- Witness for C9: the Delhi → Delhi demo transfer. -/
theorem same_station_stays_processing_witness :
    executeTransfer demoLoopRequest (freshStatus demoLoopRequest) =
      ({ freshStatus demoLoopRequest with status := TStatus.processing },
       [{ freshStatus demoLoopRequest with status := TStatus.processing }]) ∧
    (executeTransfer demoLoopRequest (freshStatus demoLoopRequest)).1.progress = 0 ∧
    (∀ snap ∈ (executeTransfer demoLoopRequest (freshStatus demoLoopRequest)).2,
      snap.status = TStatus.processing ∧ snap.progress = 0) :=
  same_station_stays_processing demoLoopRequest rfl

/-- The ranges the spec claims for the health metrics: uptime and consensus
rate in `[0.97, 1]`, latency in `[30, 150]`, throughput in `[200, 2000]`. -/
def healthInRange (h : SubnetHealth) : Prop :=
  97 / 100 ≤ h.uptime ∧ h.uptime ≤ 1 ∧
  97 / 100 ≤ h.consensusRate ∧ h.consensusRate ≤ 1 ∧
  30 ≤ h.networkLatency ∧ h.networkLatency ≤ 150 ∧
  200 ≤ h.dataThroughput ∧ h.dataThroughput ≤ 2000

lemma clampQ_mem (lo hi x : ℚ) (h : lo ≤ hi) :
    lo ≤ clampQ lo hi x ∧ clampQ lo hi x ≤ hi :=
  ⟨le_max_left lo _, max_le h (min_le_left hi x)⟩

lemma checkStationHealth_inRange (base : SubnetHealth) (r : RandDraws) :
    healthInRange (checkStationHealth base r) := by
  unfold healthInRange checkStationHealth
  refine ⟨(clampQ_mem _ _ _ (by norm_num)).1, (clampQ_mem _ _ _ (by norm_num)).2,
    (clampQ_mem _ _ _ (by norm_num)).1, (clampQ_mem _ _ _ (by norm_num)).2,
    (clampQ_mem _ _ _ (by norm_num)).1, (clampQ_mem _ _ _ (by norm_num)).2,
    (clampQ_mem _ _ _ (by norm_num)).1, (clampQ_mem _ _ _ (by norm_num)).2⟩

lemma initial_inRange (stationId : String) (now : ℚ) (r : RandDraws)
    (h : randOk r) :
    healthInRange (initialStationHealth stationId now r) := by
  obtain ⟨-, -, -, -, -, -, h4a, h4b, h5a, h5b⟩ := h
  unfold healthInRange initialStationHealth
  refine ⟨by norm_num, by norm_num, by norm_num, by norm_num, ?_, ?_, ?_, ?_⟩
  · nlinarith
  · nlinarith
  · nlinarith
  · nlinarith

lemma runHealthTicks_inRange (rs : List RandDraws) (h : SubnetHealth)
    (hh : healthInRange h) : healthInRange (runHealthTicks h rs) := by
  induction rs generalizing h with
  | nil => exact hh
  | cons r rest ih =>
    simp only [runHealthTicks, List.foldl_cons]
    exact ih (checkStationHealth h r) (checkStationHealth_inRange h r)

/-- C6: starting from the initial snapshot and after arbitrarily many
refresh ticks, a station's uptime and consensus rate stay in `[0.97, 1]`,
its latency in `[30, 150]`, and its throughput in `[200, 2000]`, for every
sequence of random draws (the initial draws lying in `[0, 1)` as
`Math.random` guarantees). -/
theorem health_metrics_clamped (stationId : String) (now : ℚ)
    (r0 : RandDraws) (rs : List RandDraws) (h0 : randOk r0) :
    healthInRange
      (runHealthTicks (initialStationHealth stationId now r0) rs) :=
  runHealthTicks_inRange rs (initialStationHealth stationId now r0)
    (initial_inRange stationId now r0 h0)

/-- Witness for C6: the Bangalore station with zero initial draws and one
refresh tick with out-of-range draws. -/
theorem health_metrics_clamped_witness :
    randOk ⟨0, 0, 0, 0, 0⟩ ∧
    healthInRange
      (runHealthTicks (initialStationHealth "bangalore" 0 ⟨0, 0, 0, 0, 0⟩)
        [⟨2, 2, 2, 2, 2⟩]) :=
  ⟨by norm_num [randOk],
    health_metrics_clamped "bangalore" 0 ⟨0, 0, 0, 0, 0⟩ [⟨2, 2, 2, 2, 2⟩]
      (by norm_num [randOk])⟩

lemma initiateTransfer_ok (health : HealthMap) (s : ManagerState)
    (request : TransferRequest)
    (hv : validateTransferRequest request = true)
    (hfrom : isStationHealthy health request.fromStation = true)
    (hto : isStationHealthy health request.toStation = true) :
    initiateTransfer health s request =
      (Except.ok request.id, processQueueSync (initiateCore s request)) := by
  unfold initiateTransfer
  rw [hv, hfrom, hto]
  simp

lemma processQueueSync_single (s : ManagerState) (request : TransferRequest)
    (hq : s.transferQueue = []) :
    processQueueSync (initiateCore s request) =
      { activeTransfers := mapSet (mapSet s.activeTransfers request.id (freshStatus request)) request.id (syncStart request (freshStatus request)),
        transferQueue := [] } := by
  unfold processQueueSync initiateCore
  simp [hq, mapGet_mapSet_self]

lemma demoHealth_ok (stationId : String)
    (h : inSubnetConfig stationId = true) :
    isStationHealthy demoHealth stationId = true := by
  simp only [isStationHealthy, demoHealth, h, if_true]
  norm_num [initialStationHealth, Bool.and_eq_true, decide_eq_true_eq]

/-- C3 counterexample: for a valid request between healthy stations
submitted to an idle manager, `initiateTransfer` returns the request id,
but the state stored for that id when the call returns already has status
`processing`, not `pending` — the un-awaited `processTransferQueue()` call
runs synchronously up to its first timer suspension before
`initiateTransfer` returns. -/
theorem initiate_not_pending_after_return :
    (initiateTransfer demoHealth emptyState demoRequest).1 =
      Except.ok demoRequest.id ∧
    (mapGet (initiateTransfer demoHealth emptyState demoRequest).2.activeTransfers demoRequest.id).map TransferStatus.status = some TStatus.processing ∧
    (mapGet (initiateTransfer demoHealth emptyState demoRequest).2.activeTransfers demoRequest.id).map TransferStatus.status ≠ some TStatus.pending := by
  have h1 := initiateTransfer_ok demoHealth emptyState demoRequest
    (by decide) (demoHealth_ok _ (by decide)) (demoHealth_ok _ (by decide))
  have h2 := processQueueSync_single emptyState demoRequest rfl
  have h3 : (mapGet (initiateTransfer demoHealth emptyState demoRequest).2.activeTransfers demoRequest.id).map TransferStatus.status = some TStatus.processing := by
    rw [h1, h2]
    simp [mapGet_mapSet_self, syncStart_status]
  refine ⟨by rw [h1], h3, by rw [h3]; simp⟩

/-- C3 amended: for every valid request between healthy stations submitted
to a manager with an empty queue, `initiateTransfer` returns the request id
without blocking on completion, but immediately after the call returns the
stored state for that id has status `processing` (the pending state exists
only transiently inside the call, before queue processing starts
synchronously). -/
theorem initiate_processing_after_return (health : HealthMap)
    (s : ManagerState) (request : TransferRequest)
    (hq : s.transferQueue = [])
    (hv : validateTransferRequest request = true)
    (hfrom : isStationHealthy health request.fromStation = true)
    (hto : isStationHealthy health request.toStation = true) :
    (initiateTransfer health s request).1 = Except.ok request.id ∧
    (mapGet (initiateTransfer health s request).2.activeTransfers
      request.id).map TransferStatus.status = some TStatus.processing := by
  rw [initiateTransfer_ok health s request hv hfrom hto,
    processQueueSync_single s request hq]
  exact ⟨rfl, by simp [mapGet_mapSet_self, syncStart_status]⟩

/-- Witness for C3 amended: the demo request on the idle demo manager. -/
theorem initiate_processing_after_return_witness :
    (initiateTransfer demoHealth emptyState demoRequest).1 =
      Except.ok demoRequest.id ∧
    (mapGet (initiateTransfer demoHealth emptyState demoRequest).2.activeTransfers demoRequest.id).map TransferStatus.status =
      some TStatus.processing :=
  initiate_processing_after_return demoHealth emptyState demoRequest rfl
    (by decide) (demoHealth_ok _ (by decide)) (demoHealth_ok _ (by decide))

/-- C7: whenever submission fails — structural validation failure or an
unhealthy source or destination — `initiateTransfer` reports the error
synchronously in its return value and the manager state, in particular the
active-transfer map, is unchanged (no TransferState is created). -/
theorem reject_leaves_state_unchanged (health : HealthMap)
    (s : ManagerState) (request : TransferRequest)
    (h : validateTransferRequest request = false ∨
      isStationHealthy health request.fromStation = false ∨
      isStationHealthy health request.toStation = false) :
    (∃ msg, (initiateTransfer health s request).1 = Except.error msg) ∧
    (initiateTransfer health s request).2 = s ∧
    (initiateTransfer health s request).2.activeTransfers =
      s.activeTransfers := by
  by_cases hv : validateTransferRequest request = true
  · have hh : (isStationHealthy health request.fromStation &&
        isStationHealthy health request.toStation) = false := by
      rcases h with h | h | h
      · rw [hv] at h
        cases h
      · simp [h]
      · simp [h]
    unfold initiateTransfer
    rw [hv, hh]
    exact ⟨⟨"One or both stations are unhealthy", by simp⟩, by simp, by simp⟩
  · have hv2 : validateTransferRequest request = false :=
      Bool.eq_false_iff.mpr hv
    unfold initiateTransfer
    rw [hv2]
    exact ⟨⟨"Invalid transfer request", by simp⟩, by simp, by simp⟩

/-- Witness for C7: a request with an empty id is rejected and creates no
state. -/
theorem reject_leaves_state_unchanged_witness :
    (∃ msg,
      (initiateTransfer demoHealth emptyState
        { demoRequest with id := "" }).1 = Except.error msg) ∧
    (initiateTransfer demoHealth emptyState
      { demoRequest with id := "" }).2 = emptyState ∧
    (initiateTransfer demoHealth emptyState
        { demoRequest with id := "" }).2.activeTransfers =
      emptyState.activeTransfers :=
  reject_leaves_state_unchanged demoHealth emptyState
    { demoRequest with id := "" } (Or.inl (by decide))

/-- C10: a valid, healthy request whose id already has a stored
TransferState (here even a completed one) is not rejected: submission
returns the id, the map entry is overwritten with a fresh pending record
with progress 0, and the request is enqueued again — request-id uniqueness
is never checked. -/
theorem duplicate_id_overwrites (health : HealthMap) (s : ManagerState)
    (request : TransferRequest) (old : TransferStatus)
    (_hdup : mapGet s.activeTransfers request.id = some old)
    (hv : validateTransferRequest request = true)
    (hfrom : isStationHealthy health request.fromStation = true)
    (hto : isStationHealthy health request.toStation = true) :
    (initiateTransfer health s request).1 = Except.ok request.id ∧
    mapGet (initiateCore s request).activeTransfers request.id =
      some (freshStatus request) ∧
    (freshStatus request).status = TStatus.pending ∧
    (freshStatus request).progress = 0 ∧
    (initiateCore s request).transferQueue =
      s.transferQueue ++ [request] := by
  refine ⟨?_, ?_, rfl, rfl, rfl⟩
  · rw [initiateTransfer_ok health s request hv hfrom hto]
  · exact mapGet_mapSet_self s.activeTransfers request.id
      (freshStatus request)

/-- Witness for C10: resubmitting the demo request while a completed record
with the same id is stored. -/
theorem duplicate_id_overwrites_witness :
    (initiateTransfer demoHealth demoCompletedState demoRequest).1 =
      Except.ok demoRequest.id ∧
    mapGet (initiateCore demoCompletedState demoRequest).activeTransfers
      demoRequest.id = some (freshStatus demoRequest) ∧
    (freshStatus demoRequest).status = TStatus.pending ∧
    (freshStatus demoRequest).progress = 0 ∧
    (initiateCore demoCompletedState demoRequest).transferQueue =
      demoCompletedState.transferQueue ++ [demoRequest] :=
  duplicate_id_overwrites demoHealth demoCompletedState demoRequest
    { freshStatus demoRequest with
        status := TStatus.completed, progress := 100 }
    rfl (by decide) (demoHealth_ok _ (by decide))
    (demoHealth_ok _ (by decide))

end Isro
